import Mathlib

/-!
Shallow embedding of the Digital Wellness Analyzer: the scoring engine of
`analyzer.py` (class `WellnessAnalyzer`) and the `/analyze` route handler of
`app.py`.

Conventions of the embedding:
* Python dict-based snapshots with per-access defaults (`data.get(key, d)`)
  become structures whose fields carry those defaults; a missing field is the
  field at its default value, which is exactly what every accessor in
  `analyzer.py` produces.
* Input quantities (minutes, hours-of-day) are integers (`ℤ`); scores and
  percentages are exact rationals (`ℚ`) standing for Python floats.  The
  values the claims inspect are reached exactly, so the rational computation
  agrees with the float one there.
* `round(x, 1)` becomes `round1` below: multiply by 10, round to the nearest
  integer with halves to even (`pyRound`, Python's rounding mode), divide by
  10.  Python rounds the nearest binary double rather than the exact rational;
  on every value a claim inspects the two computations agree.
* Python's `sorted(sessions, key=start_hour)` is a stable sort by the key; it
  is modelled by a stable insertion sort (`sortByStart`).
-/

/-- An entry of the `apps` list.  Field defaults are the `dict.get` defaults
used by `analyzer.py` (`name` → "Unknown", `category` → "other",
`minutes` → 0). -/
structure AppUsage where
  name : String := "Unknown"
  category : String := "other"
  minutes : ℤ := 0
  deriving Repr, DecidableEq

/-- An entry of the `sessions` list.  `minutes := none` models a session dict
without a `"minutes"` key, in which case the duration is derived from the
hour span. -/
structure Session where
  start_hour : ℤ := 0
  end_hour : ℤ := 0
  minutes : Option ℤ := none
  deriving Repr, DecidableEq

/-- The input snapshot; defaults are those of `data.get(...)` in `analyze`. -/
structure Snapshot where
  total_screen_time_minutes : ℤ := 0
  apps : List AppUsage := []
  sessions : List Session := []
  deriving Repr, DecidableEq

/-- The `breakdown` mapping of the result (fixed five keys). -/
structure Breakdown where
  screen_time : ℚ
  diversity : ℚ
  timing : ℚ
  balance : ℚ
  breaks : ℚ
  deriving Repr, DecidableEq

/-- The five unrounded sub-scores, as passed to `_calculate_overall_score`
and `_generate_tags`. -/
structure Scores where
  screen_time : ℚ
  diversity : ℚ
  timing : ℚ
  balance : ℚ
  breaks : ℚ
  deriving Repr, DecidableEq

/-- The `metrics` part of the result. -/
structure Metrics where
  total_screen_time_hours : ℚ
  app_count : ℕ
  session_count : ℕ
  deriving Repr, DecidableEq

/-- The full result dictionary returned by `WellnessAnalyzer.analyze`. -/
structure AnalysisResult where
  overall_score : ℚ
  breakdown : Breakdown
  tags : List String
  patterns : List String
  metrics : Metrics
  deriving Repr, DecidableEq

/-- Python's `round` to the nearest integer: halves go to the even
neighbour (banker's rounding), which is what `round` and `format` do on
Python floats. -/
def pyRound (q : ℚ) : ℤ :=
  let f := q.floor
  if q - (f : ℚ) < 1 / 2 then f
  else if q - (f : ℚ) > 1 / 2 then f + 1
  else if f % 2 = 0 then f else f + 1

/-- Python's `round(x, 1)`. -/
def round1 (q : ℚ) : ℚ := ((pyRound (q * 10) : ℤ) : ℚ) / 10

/-- `s.get("minutes", (end - start) * 60)` in `_score_usage_timing`. -/
def sessionDuration (s : Session) : ℤ :=
  s.minutes.getD ((s.end_hour - s.start_hour) * 60)

/-- `_score_screen_time`. -/
def score_screen_time (minutes : ℤ) : ℚ :=
  let hours : ℚ := (minutes : ℚ) / 60
  if hours ≤ 4 then 100
  else if hours ≤ 6 then 85
  else if hours ≤ 8 then 70
  else if hours ≤ 10 then 50
  else if hours ≤ 12 then 30
  else 10

/-- `_score_app_diversity`. -/
def score_app_diversity (apps : List AppUsage) : ℚ :=
  if apps = [] then 50
  else
    let count := apps.length
    if 4 ≤ count ∧ count ≤ 8 then 100
    else if 2 ≤ count ∧ count ≤ 10 then 80
    else if count = 1 then 40
    else 60

/-- The late-night test of `_score_usage_timing`:
`start >= 23 or end >= 23 or start <= 2 or end <= 2`. -/
def lateNightPred (s : Session) : Bool :=
  decide (s.start_hour ≥ 23) || decide (s.end_hour ≥ 23) ||
    decide (s.start_hour ≤ 2) || decide (s.end_hour ≤ 2)

/-- The early-morning test of `_score_usage_timing`:
`5 <= start <= 7 or 5 <= end <= 7`. -/
def earlyMorningPred (s : Session) : Bool :=
  (decide (5 ≤ s.start_hour) && decide (s.start_hour ≤ 7)) ||
    (decide (5 ≤ s.end_hour) && decide (s.end_hour ≤ 7))

/-- One iteration of the accumulation loop of `_score_usage_timing`: the pair
is `(late_night, early_morning)`. -/
def timingStep (acc : ℤ × ℤ) (s : Session) : ℤ × ℤ :=
  (acc.1 + if lateNightPred s then sessionDuration s else 0,
   acc.2 + if earlyMorningPred s then sessionDuration s else 0)

/-- `_score_usage_timing`. -/
def score_usage_timing (sessions : List Session) : ℚ :=
  if sessions = [] then 50
  else
    let acc := sessions.foldl timingStep (0, 0)
    let late_night := acc.1
    let early_morning := acc.2
    let score1 : ℚ :=
      if late_night > 120 then 100 - 40
      else if late_night > 60 then 100 - 25
      else if late_night > 30 then 100 - 15
      else 100
    let score2 : ℚ := if early_morning > 60 then score1 - 10 else score1
    max 0 score2

/-- Total minutes recorded under one category — the value
`category_minutes[cat]` of the per-category dict built in
`_score_category_balance`, `_generate_tags` and `_identify_patterns`
(0 when the category never occurs, matching `dict.get(cat, 0)`). -/
def categoryTotal (apps : List AppUsage) (cat : String) : ℤ :=
  ((apps.filter (fun a => a.category == cat)).map (fun a => a.minutes)).sum

/-- The running `total` accumulated in `_score_category_balance`. -/
def totalAppMinutes (apps : List AppUsage) : ℤ :=
  (apps.map (fun a => a.minutes)).sum

/-- The categories in first-occurrence order: the key order of the
`category_minutes` dict (Python dicts preserve insertion order). -/
def categoryKeys (apps : List AppUsage) : List String :=
  apps.foldl (fun acc a => if a.category ∈ acc then acc else acc ++ [a.category]) []

/-- Python's `max` on a list of numbers; every caller passes a nonempty list
(`max` on `[]` would raise, which no guarded call path reaches). -/
def listMax (l : List ℚ) : ℚ :=
  match l with
  | [] => 0
  | x :: xs => xs.foldl max x

/-- `_score_category_balance`. -/
def score_category_balance (apps : List AppUsage) : ℚ :=
  if apps = [] then 50
  else
    let total := totalAppMinutes apps
    if total = 0 then 50
    else
      let percentages := (categoryKeys apps).map
        (fun c => ((categoryTotal apps c : ℚ) / (total : ℚ)) * 100)
      let dominant := listMax percentages
      let s1 : ℚ :=
        if dominant > 70 then 100 - 30
        else if dominant > 60 then 100 - 15
        else 100
      let productivity : ℚ := ((categoryTotal apps "productivity" : ℚ) / (total : ℚ)) * 100
      let s2 : ℚ := if 30 ≤ productivity ∧ productivity ≤ 60 then s1 + 10 else s1
      let social : ℚ := ((categoryTotal apps "social" : ℚ) / (total : ℚ)) * 100
      let s3 : ℚ :=
        if social > 40 then s2 - 20
        else if social > 30 then s2 - 10
        else s2
      max 0 (min 100 s3)

/-- Insert a session into a list sorted by `start_hour`, before any element
with an equal key — together with `List.foldr` this is a stable sort, the
contract of Python's `sorted(..., key=lambda x: x.get("start_hour", 0))`. -/
def insertByStart (s : Session) : List Session → List Session
  | [] => [s]
  | t :: ts =>
    if s.start_hour ≤ t.start_hour then s :: t :: ts
    else t :: insertByStart s ts

/-- Stable sort of sessions by `start_hour`. -/
def sortByStart (sessions : List Session) : List Session :=
  sessions.foldr insertByStart []

/-- `_score_breaks`. -/
def score_breaks (sessions : List Session) : ℚ :=
  if sessions.length ≤ 1 then 60
  else
    let sorted := sortByStart sessions
    let gaps : List ℤ := (sorted.zip sorted.tail).map (fun p => p.2.start_hour - p.1.end_hour)
    let breaks := gaps.filter (fun d => decide (0 < d))
    if breaks = [] then 40
    else
      let avg : ℚ := ((breaks.sum : ℤ) : ℚ) / (breaks.length : ℚ)
      if 1 ≤ avg ∧ avg ≤ 2 then 100
      else if 1 / 2 ≤ avg ∧ avg ≤ 3 then 85
      else if avg < 1 / 2 then 50
      else 70

/-- `_calculate_overall_score` (the weights dict, in its iteration order). -/
def calculate_overall_score (s : Scores) : ℚ :=
  s.screen_time * (30 / 100) + s.diversity * (15 / 100) + s.timing * (25 / 100) +
    s.balance * (20 / 100) + s.breaks * (10 / 100)

/-- Rule 1 of `_generate_tags`: the overall tier. -/
def tierTags (overall : ℚ) : List String :=
  if overall ≥ 80 then ["balanced"]
  else if overall ≥ 60 then ["moderate"]
  else ["needs-attention"]

/-- Rule 2 of `_generate_tags`: usage volume (`hours = total / 60`). -/
def volumeTags (hours : ℚ) : List String :=
  if hours > 10 then ["heavy-user"]
  else if hours > 8 then ["workaholic"]
  else if hours < 3 then ["light-user"]
  else []

/-- Rule 3 of `_generate_tags`: timing sub-score below 60. -/
def timingTags (timingScore : ℚ) : List String :=
  if timingScore < 60 then ["night-owl"] else []

/-- Rule 4 of `_generate_tags`: the first-match-then-break loop over sessions
appends "early-bird" at most once, i.e. exactly when some session starts at
hour ≤ 6. -/
def earlyBirdTags (sessions : List Session) : List String :=
  if sessions.any (fun s => decide (s.start_hour ≤ 6)) then ["early-bird"] else []

/-- Rule 5 of `_generate_tags`: productivity/social shares of the reported
total (only when `total > 0`). -/
def categoryShareTags (apps : List AppUsage) (total : ℤ) : List String :=
  if total > 0 then
    let productivity : ℚ := ((categoryTotal apps "productivity" : ℤ) : ℚ) / (total : ℚ) * 100
    let social : ℚ := ((categoryTotal apps "social" : ℤ) : ℚ) / (total : ℚ) * 100
    (if productivity > 50 then ["focused"] else []) ++
      (if social > 40 then ["social-butterfly"] else [])
  else []

/-- Rule 6 of `_generate_tags`: app count. -/
def appCountTags (apps : List AppUsage) : List String :=
  if apps.length ≤ 2 then ["single-minded"]
  else if apps.length ≥ 10 then ["multitasker"]
  else []

/-- Rule 7 of `_generate_tags`: break quality. -/
def breakTags (breakScore : ℚ) : List String :=
  if breakScore ≥ 80 then ["good-breaks"]
  else if breakScore < 50 then ["marathon-sessions"]
  else []

/-- `_generate_tags`: the seven append blocks, in source order. -/
def generate_tags (data : Snapshot) (overall : ℚ) (scores : Scores) : List String :=
  tierTags overall ++
    volumeTags (((data.total_screen_time_minutes : ℤ) : ℚ) / 60) ++
    timingTags scores.timing ++
    earlyBirdTags data.sessions ++
    categoryShareTags data.apps data.total_screen_time_minutes ++
    appCountTags data.apps ++
    breakTags scores.breaks

/-- Python's `max(apps, key=minutes)` starting from the first element: a later
element replaces the best only when strictly larger, so the first maximum
wins. -/
def topApp (a : AppUsage) (rest : List AppUsage) : AppUsage :=
  rest.foldl (fun best x => if best.minutes < x.minutes then x else best) a

/-- Python's `max(category_minutes.items(), key=value)` over the dict in key
insertion order; ties keep the earlier key. -/
def domCategory (apps : List AppUsage) : String × ℤ :=
  match categoryKeys apps with
  | [] => ("", 0)
  | c :: cs =>
    cs.foldl
      (fun best k =>
        if best.2 < categoryTotal apps k then (k, categoryTotal apps k) else best)
      (c, categoryTotal apps c)

/-- `_identify_patterns`.  The formatted percentage `f"{pct:.0f}"` is rendered
through `round`; Python formats the float half-to-even, which differs only at
exact halves (no claim inspects the pattern strings). -/
def identify_patterns (data : Snapshot) : List String :=
  let total := data.total_screen_time_minutes
  let apps := data.apps
  let sessions := data.sessions
  let lateNight := sessions.filter
    (fun s => decide (s.start_hour ≥ 22) || decide (s.end_hour ≥ 23))
  let p1 : List String :=
    if lateNight = [] then []
    else ["Late night usage detected in " ++ toString lateNight.length ++ " session(s)"]
  let p2 : List String :=
    match apps with
    | [] => []
    | a :: rest =>
      let top := topApp a rest
      let pct : ℚ := if total > 0 then ((top.minutes : ℤ) : ℚ) / (total : ℚ) * 100 else 0
      if pct > 50 then
        ["Heavy focus on " ++ top.name ++ " (" ++ toString (pyRound pct) ++ "% of time)"]
      else []
  let longSessions := sessions.filter (fun s => decide (s.end_hour - s.start_hour > 4))
  let p3 : List String :=
    if longSessions = [] then []
    else [toString longSessions.length ++ " extended session(s) over 4 hours"]
  let p4 : List String :=
    if total > 0 ∧ apps ≠ [] then
      let dom := domCategory apps
      if ((dom.2 : ℤ) : ℚ) / (total : ℚ) > 7 / 10 then
        ["Heavily skewed toward " ++ dom.1 ++ " activities"]
      else []
    else []
  p1 ++ p2 ++ p3 ++ p4

/-- The five sub-score computations at the top of `analyze`. -/
def subScores (data : Snapshot) : Scores :=
  { screen_time := score_screen_time data.total_screen_time_minutes,
    diversity := score_app_diversity data.apps,
    timing := score_usage_timing data.sessions,
    balance := score_category_balance data.apps,
    breaks := score_breaks data.sessions }

/-- `WellnessAnalyzer.analyze`. -/
def analyze (data : Snapshot) : AnalysisResult :=
  let scores := subScores data
  let overall := calculate_overall_score scores
  { overall_score := round1 overall,
    breakdown :=
      { screen_time := round1 scores.screen_time,
        diversity := round1 scores.diversity,
        timing := round1 scores.timing,
        balance := round1 scores.balance,
        breaks := round1 scores.breaks },
    tags := generate_tags data overall scores,
    patterns := identify_patterns data,
    metrics :=
      { total_screen_time_hours := round1 (((data.total_screen_time_minutes : ℤ) : ℚ) / 60),
        app_count := data.apps.length,
        session_count := data.sessions.length } }

/-- The unused `self.max_score` configuration constant of `WellnessAnalyzer`. -/
def max_score : ℚ := 100

/-!
Checked variants: Python's `/` raises `ZeroDivisionError` on a zero divisor.
`div?` makes that error branch explicit, and the `?`-suffixed functions below
repeat each scorer with every division routed through it, so that totality of
the engine ("every division is guarded") is a theorem rather than an artefact
of total division on `ℚ`.
-/

/-- Python division with its error branch: `none` is `ZeroDivisionError`. -/
def div? (a b : ℚ) : Option ℚ :=
  if b = 0 then none else some (a / b)

/-- `_score_screen_time` with the `minutes / 60` division checked. -/
def score_screen_time? (minutes : ℤ) : Option ℚ := do
  let hours ← div? (minutes : ℚ) 60
  pure
    (if hours ≤ 4 then 100
     else if hours ≤ 6 then 85
     else if hours ≤ 8 then 70
     else if hours ≤ 10 then 50
     else if hours ≤ 12 then 30
     else 10)

/-- `_score_category_balance` with the three share divisions checked. -/
def score_category_balance? (apps : List AppUsage) : Option ℚ :=
  if apps = [] then pure 50
  else
    let total := totalAppMinutes apps
    if total = 0 then pure 50
    else do
      let percentages ← (categoryKeys apps).mapM (fun c => do
        let p ← div? ((categoryTotal apps c : ℤ) : ℚ) ((total : ℤ) : ℚ)
        pure (p * 100))
      let dominant := listMax percentages
      let s1 : ℚ :=
        if dominant > 70 then 100 - 30
        else if dominant > 60 then 100 - 15
        else 100
      let productivity ← div? ((categoryTotal apps "productivity" : ℤ) : ℚ) ((total : ℤ) : ℚ)
      let s2 : ℚ := if 30 ≤ productivity * 100 ∧ productivity * 100 ≤ 60 then s1 + 10 else s1
      let social ← div? ((categoryTotal apps "social" : ℤ) : ℚ) ((total : ℤ) : ℚ)
      let s3 : ℚ :=
        if social * 100 > 40 then s2 - 20
        else if social * 100 > 30 then s2 - 10
        else s2
      pure (max 0 (min 100 s3))

/-- `_score_breaks` with the average division checked. -/
def score_breaks? (sessions : List Session) : Option ℚ :=
  if sessions.length ≤ 1 then pure 60
  else
    let sorted := sortByStart sessions
    let gaps : List ℤ := (sorted.zip sorted.tail).map (fun p => p.2.start_hour - p.1.end_hour)
    let breaks := gaps.filter (fun d => decide (0 < d))
    if breaks = [] then pure 40
    else do
      let avg ← div? ((breaks.sum : ℤ) : ℚ) ((breaks.length : ℕ) : ℚ)
      pure
        (if 1 ≤ avg ∧ avg ≤ 2 then 100
         else if 1 / 2 ≤ avg ∧ avg ≤ 3 then 85
         else if avg < 1 / 2 then 50
         else 70)

/-- `_generate_tags` with the hour and share divisions checked. -/
def generate_tags? (data : Snapshot) (overall : ℚ) (scores : Scores) : Option (List String) := do
  let hours ← div? ((data.total_screen_time_minutes : ℤ) : ℚ) 60
  let shareTags ←
    if data.total_screen_time_minutes > 0 then do
      let productivity ← div? ((categoryTotal data.apps "productivity" : ℤ) : ℚ)
        ((data.total_screen_time_minutes : ℤ) : ℚ)
      let social ← div? ((categoryTotal data.apps "social" : ℤ) : ℚ)
        ((data.total_screen_time_minutes : ℤ) : ℚ)
      pure ((if productivity * 100 > 50 then ["focused"] else []) ++
        (if social * 100 > 40 then ["social-butterfly"] else []))
    else pure []
  pure (tierTags overall ++ volumeTags hours ++ timingTags scores.timing ++
    earlyBirdTags data.sessions ++ shareTags ++ appCountTags data.apps ++
    breakTags scores.breaks)

/-- `_identify_patterns` with the top-app and dominant-category share
divisions checked. -/
def identify_patterns? (data : Snapshot) : Option (List String) := do
  let total := data.total_screen_time_minutes
  let lateNight := data.sessions.filter
    (fun s => decide (s.start_hour ≥ 22) || decide (s.end_hour ≥ 23))
  let p1 : List String :=
    if lateNight = [] then []
    else ["Late night usage detected in " ++ toString lateNight.length ++ " session(s)"]
  let p2 ←
    match data.apps with
    | [] => pure []
    | a :: rest => do
      let top := topApp a rest
      let pct ←
        if total > 0 then do
          let q ← div? ((top.minutes : ℤ) : ℚ) ((total : ℤ) : ℚ)
          pure (q * 100)
        else pure (0 : ℚ)
      pure
        (if pct > 50 then
          ["Heavy focus on " ++ top.name ++ " (" ++ toString (pyRound pct) ++ "% of time)"]
         else [])
  let longSessions := data.sessions.filter (fun s => decide (s.end_hour - s.start_hour > 4))
  let p3 : List String :=
    if longSessions = [] then []
    else [toString longSessions.length ++ " extended session(s) over 4 hours"]
  let p4 ←
    if total > 0 ∧ data.apps ≠ [] then do
      let dom := domCategory data.apps
      let share ← div? ((dom.2 : ℤ) : ℚ) ((total : ℤ) : ℚ)
      pure (if share > 7 / 10 then ["Heavily skewed toward " ++ dom.1 ++ " activities"] else [])
    else pure []
  pure (p1 ++ p2 ++ p3 ++ p4)

/-- `analyze` with every division of the engine checked. -/
def analyze? (data : Snapshot) : Option AnalysisResult := do
  let screen ← score_screen_time? data.total_screen_time_minutes
  let balance ← score_category_balance? data.apps
  let breaksScore ← score_breaks? data.sessions
  let scores : Scores :=
    { screen_time := screen,
      diversity := score_app_diversity data.apps,
      timing := score_usage_timing data.sessions,
      balance := balance,
      breaks := breaksScore }
  let overall := calculate_overall_score scores
  let tags ← generate_tags? data overall scores
  let patterns ← identify_patterns? data
  let hours ← div? ((data.total_screen_time_minutes : ℤ) : ℚ) 60
  pure
    { overall_score := round1 overall,
      breakdown :=
        { screen_time := round1 scores.screen_time,
          diversity := round1 scores.diversity,
          timing := round1 scores.timing,
          balance := round1 scores.balance,
          breaks := round1 scores.breaks },
      tags := tags,
      patterns := patterns,
      metrics :=
        { total_screen_time_hours := round1 hours,
          app_count := data.apps.length,
          session_count := data.sessions.length } }

/-- Outcome of `request.get_json()` as seen by the route handler in `app.py`:
either the call raised (Flask's default `silent=False` raises `BadRequest` /
`UnsupportedMediaType` on a malformed or empty body), or it returned a value,
with `none` standing for a falsy result (JSON `null`, `{}`, `[]`, ...). -/
inductive ParseOutcome where
  | raised (msg : String)
  | value (data : Option Snapshot)
  deriving Repr, DecidableEq

/-- An HTTP response of the `/analyze` route: status code, analysis payload,
error message.  The `llm_insight` field is omitted: `generate_insight`
(`llm_insights.py`) catches every exception and falls back to a local
template, so it contributes no control flow to the handler. -/
structure HttpResponse where
  status : ℕ
  result : Option AnalysisResult
  error : Option String
  deriving Repr, DecidableEq

/-- The `/analyze` route handler (`app.py`): the `try` block parses, rejects
falsy bodies with 400, and runs the engine; the blanket `except` turns any
exception raised inside the `try` — including the parse exception on a
malformed or empty body — into a 500 response carrying the message. -/
def analyzeRoute (req : ParseOutcome) : HttpResponse :=
  match req with
  | .raised msg => { status := 500, result := none, error := some msg }
  | .value none => { status := 400, result := none, error := some "No data provided" }
  | .value (some data) =>
    match analyze? data with
    | some r => { status := 200, result := some r, error := none }
    | none => { status := 500, result := none, error := some "division by zero" }

/-- Scenario A of the spec (also the sample input of `test_analyzer.py`); the
extra `"date"` key of the sample is not read by the engine. -/
def scenarioA : Snapshot :=
  { total_screen_time_minutes := 540,
    apps := [
      { name := "VS Code", category := "productivity", minutes := 240 },
      { name := "Chrome", category := "productivity", minutes := 120 },
      { name := "Instagram", category := "social", minutes := 90 },
      { name := "YouTube", category := "entertainment", minutes := 60 },
      { name := "Slack", category := "productivity", minutes := 30 }],
    sessions := [
      { start_hour := 9, end_hour := 12, minutes := some 180 },
      { start_hour := 14, end_hour := 18, minutes := some 240 },
      { start_hour := 22, end_hour := 23, minutes := some 60 }] }

/-- Scenario B of the spec: the all-empty snapshot
(`total_screen_time_minutes` 0, no apps, no sessions). -/
def emptySnapshot : Snapshot :=
  { total_screen_time_minutes := 0, apps := [], sessions := [] }

/-- Modelled from the spec: the app-diversity score as a function of the app
count alone — empty → 50; any count in [4,8] → 100 (checked first); otherwise
any count in [2,10] → 80; count exactly 1 → 40; every other count (> 10)
→ 60. -/
def diversitySpec (n : ℕ) : ℚ :=
  if n = 0 then 50
  else if 4 ≤ n ∧ n ≤ 8 then 100
  else if 2 ≤ n ∧ n ≤ 10 then 80
  else if n = 1 then 40
  else 60

/-- Modelled from the spec: the screen-time step ladder over hours —
≤4h→100, ≤6h→85, ≤8h→70, ≤10h→50, ≤12h→30, else→10. -/
def screenTimeStep (hours : ℚ) : ℚ :=
  if hours ≤ 4 then 100
  else if hours ≤ 6 then 85
  else if hours ≤ 8 then 70
  else if hours ≤ 10 then 50
  else if hours ≤ 12 then 30
  else 10

/-- The claim's `late_night` accumulator: total duration of the sessions
whose `start_hour` or `end_hour` is ≥ 23 or ≤ 2. -/
def lateNightMinutes (sessions : List Session) : ℤ :=
  ((sessions.filter lateNightPred).map sessionDuration).sum

/-- The claim's `early_morning` accumulator: total duration of the sessions
with an endpoint in [5,7]. -/
def earlyMorningMinutes (sessions : List Session) : ℤ :=
  ((sessions.filter earlyMorningPred).map sessionDuration).sum

/-- Membership test for the three overall-tier tags. -/
def isTierTag (t : String) : Bool :=
  t == "balanced" || t == "moderate" || t == "needs-attention"

lemma rat_floor_eq_intFloor (q : ℚ) : q.floor = ⌊q⌋ := by
  rw [Rat.floor_def', ← Rat.floor_def]

/-- `pyRound` is within one half of its argument. -/
lemma pyRound_bracket (q : ℚ) :
    q - 1 / 2 ≤ (pyRound q : ℚ) ∧ (pyRound q : ℚ) ≤ q + 1 / 2 := by
  have hf : q.floor = ⌊q⌋ := rat_floor_eq_intFloor q
  have h1 : ((⌊q⌋ : ℤ) : ℚ) ≤ q := Int.floor_le q
  have h2 : q < ⌊q⌋ + 1 := Int.lt_floor_add_one q
  simp only [pyRound, hf]
  split_ifs <;> constructor <;> push_cast <;> linarith

lemma round1_bounds {q : ℚ} (h0 : 0 ≤ q) (h1 : q ≤ 100) :
    0 ≤ round1 q ∧ round1 q ≤ 100 := by
  obtain ⟨hl, hu⟩ := pyRound_bracket (q * 10)
  have hge : (0 : ℤ) ≤ pyRound (q * 10) := by
    by_contra hc
    push_neg at hc
    have h' : pyRound (q * 10) ≤ -1 := by omega
    have h'' : ((pyRound (q * 10) : ℤ) : ℚ) ≤ -1 := by exact_mod_cast h'
    linarith
  have hle : pyRound (q * 10) ≤ 1000 := by
    by_contra hc
    push_neg at hc
    have h' : (1001 : ℤ) ≤ pyRound (q * 10) := by omega
    have h'' : ((1001 : ℤ) : ℚ) ≤ ((pyRound (q * 10) : ℤ) : ℚ) := by exact_mod_cast h'
    norm_num at h''
    linarith
  unfold round1
  constructor
  · exact div_nonneg (by exact_mod_cast hge) (by norm_num)
  · rw [div_le_iff₀ (by norm_num : (0 : ℚ) < 10)]
    calc ((pyRound (q * 10) : ℤ) : ℚ) ≤ 1000 := by exact_mod_cast hle
      _ = 100 * 10 := by norm_num

lemma score_screen_time_bounds (m : ℤ) :
    0 ≤ score_screen_time m ∧ score_screen_time m ≤ 100 := by
  simp only [score_screen_time]
  split_ifs <;> norm_num

lemma score_app_diversity_bounds (apps : List AppUsage) :
    0 ≤ score_app_diversity apps ∧ score_app_diversity apps ≤ 100 := by
  simp only [score_app_diversity]
  split_ifs <;> norm_num

lemma score_usage_timing_bounds (sessions : List Session) :
    0 ≤ score_usage_timing sessions ∧ score_usage_timing sessions ≤ 100 := by
  simp only [score_usage_timing]
  split_ifs <;> constructor <;> norm_num [le_max_iff, max_le_iff]

lemma score_category_balance_bounds (apps : List AppUsage) :
    0 ≤ score_category_balance apps ∧ score_category_balance apps ≤ 100 := by
  simp only [score_category_balance]
  split_ifs <;> constructor <;>
    norm_num [le_max_iff, max_le_iff, le_min_iff, min_le_iff]

lemma score_breaks_bounds (sessions : List Session) :
    0 ≤ score_breaks sessions ∧ score_breaks sessions ≤ 100 := by
  simp only [score_breaks]
  split_ifs <;> norm_num

lemma calculate_overall_score_bounds {s : Scores}
    (h1 : 0 ≤ s.screen_time ∧ s.screen_time ≤ 100)
    (h2 : 0 ≤ s.diversity ∧ s.diversity ≤ 100)
    (h3 : 0 ≤ s.timing ∧ s.timing ≤ 100)
    (h4 : 0 ≤ s.balance ∧ s.balance ≤ 100)
    (h5 : 0 ≤ s.breaks ∧ s.breaks ≤ 100) :
    0 ≤ calculate_overall_score s ∧ calculate_overall_score s ≤ 100 := by
  obtain ⟨a1, b1⟩ := h1
  obtain ⟨a2, b2⟩ := h2
  obtain ⟨a3, b3⟩ := h3
  obtain ⟨a4, b4⟩ := h4
  obtain ⟨a5, b5⟩ := h5
  unfold calculate_overall_score
  constructor <;> linarith

/-- C1: for every snapshot, the returned `overall_score` and every one of the
five entries of `breakdown` (screen_time, diversity, timing, balance, breaks)
lie in the interval [0, 100]. -/
theorem claim_C1_scores_in_range (data : Snapshot) :
    (0 ≤ (analyze data).overall_score ∧ (analyze data).overall_score ≤ 100) ∧
    (0 ≤ (analyze data).breakdown.screen_time ∧ (analyze data).breakdown.screen_time ≤ 100) ∧
    (0 ≤ (analyze data).breakdown.diversity ∧ (analyze data).breakdown.diversity ≤ 100) ∧
    (0 ≤ (analyze data).breakdown.timing ∧ (analyze data).breakdown.timing ≤ 100) ∧
    (0 ≤ (analyze data).breakdown.balance ∧ (analyze data).breakdown.balance ≤ 100) ∧
    (0 ≤ (analyze data).breakdown.breaks ∧ (analyze data).breakdown.breaks ≤ 100) := by
  have hst := score_screen_time_bounds data.total_screen_time_minutes
  have hd := score_app_diversity_bounds data.apps
  have ht := score_usage_timing_bounds data.sessions
  have hb := score_category_balance_bounds data.apps
  have hk := score_breaks_bounds data.sessions
  have hov := calculate_overall_score_bounds (s := subScores data) hst hd ht hb hk
  exact ⟨round1_bounds hov.1 hov.2, round1_bounds hst.1 hst.2, round1_bounds hd.1 hd.2,
    round1_bounds ht.1 ht.2, round1_bounds hb.1 hb.2, round1_bounds hk.1 hk.2⟩

/-!
Concrete evaluations are settled by `decide`.  Core's `Rat` arithmetic is
`@[irreducible]`, which only blocks the elaborator's reduction, not the
kernel's; the attributes below restore the default transparency locally so
that `decide` can evaluate. -/

section ConcreteEvaluation

set_option allowUnsafeReducibility true
attribute [local semireducible] Rat.add Rat.mul Rat.sub Rat.inv Rat.ofScientific

/-- C2 counterexample: on the Scenario A snapshot the engine does not return
the claimed values — the screen-time sub-score is not 70 and the overall
score is not 79.8 (9 hours falls in the `≤ 10h` band, which scores 50). -/
theorem claim_C2_counterexample :
    ¬((analyze scenarioA).breakdown.screen_time = 70 ∧
      (analyze scenarioA).overall_score = 79.8 ∧
      "moderate" ∈ (analyze scenarioA).tags) := by
  decide

/-- C2 amended: on the Scenario A snapshot, `analyze` returns breakdown
screen_time = 50 (9 h lies in the ≤ 10 h band, not the ≤ 8 h one),
diversity = 100, timing = 85, balance = 70, breaks = 85, overall score
50×.3 + 100×.15 + 85×.25 + 70×.2 + 85×.10 = 73.75 → 73.8, and the tier tag
"moderate" (73.75 < 80). -/
theorem claim_C2_amended :
    (analyze scenarioA).breakdown =
      { screen_time := 50, diversity := 100, timing := 85, balance := 70, breaks := 85 } ∧
    (analyze scenarioA).overall_score = 73.8 ∧
    "moderate" ∈ (analyze scenarioA).tags := by
  decide

/-- C3: on the all-empty snapshot, `analyze` returns breakdown
screen_time = 100, diversity = 50, timing = 50, balance = 50, breaks = 60,
overall score 66.0, and the tier tag "moderate"; being a total function it
succeeds deterministically. -/
theorem claim_C3_empty_snapshot :
    (analyze emptySnapshot).breakdown =
      { screen_time := 100, diversity := 50, timing := 50, balance := 50, breaks := 60 } ∧
    (analyze emptySnapshot).overall_score = 66 ∧
    "moderate" ∈ (analyze emptySnapshot).tags := by
  decide


/-- C4: the app-diversity sub-score is a function of the app count alone,
with the claimed bands: empty → 50; [4,8] → 100 (checked first); [2,10] → 80;
exactly 1 → 40; every count above 10 → 60. -/
theorem claim_C4_diversity_count_only (apps : List AppUsage) :
    score_app_diversity apps = diversitySpec apps.length := by
  cases apps with
  | nil => simp [score_app_diversity, diversitySpec]
  | cons a t =>
    simp only [score_app_diversity, diversitySpec, List.length_cons]
    rw [if_neg (List.cons_ne_nil a t), if_neg (by omega : ¬(t.length + 1 = 0))]

lemma timing_foldl_eq (l : List Session) (a b : ℤ) :
    l.foldl timingStep (a, b) =
      (a + lateNightMinutes l, b + earlyMorningMinutes l) := by
  induction l generalizing a b with
  | nil => simp [lateNightMinutes, earlyMorningMinutes]
  | cons s t ih =>
    simp only [List.foldl_cons]
    rw [show timingStep (a, b) s =
        (a + if lateNightPred s then sessionDuration s else 0,
         b + if earlyMorningPred s then sessionDuration s else 0) from rfl]
    rw [ih]
    unfold lateNightMinutes earlyMorningMinutes
    simp only [List.filter_cons]
    by_cases h1 : lateNightPred s <;> by_cases h2 : earlyMorningPred s <;>
      simp [h1, h2, Prod.ext_iff] <;> omega

/-- C5: for every non-empty session list, the usage-timing sub-score equals
100 minus the late-night penalty (40 if `late_night > 120`, else 25 if
`> 60`, else 15 if `> 30`) minus the independent early-morning penalty (10 if
`early_morning > 60`), floored at 0, where the two accumulators sum the
durations (explicit `minutes` or `(end_hour - start_hour) * 60`) of the
sessions matching the respective endpoint predicates. -/
theorem claim_C5_timing_formula (sessions : List Session) (h : sessions ≠ []) :
    score_usage_timing sessions =
      max 0 (100 -
        (if lateNightMinutes sessions > 120 then (40 : ℚ)
         else if lateNightMinutes sessions > 60 then 25
         else if lateNightMinutes sessions > 30 then 15
         else 0) -
        (if earlyMorningMinutes sessions > 60 then (10 : ℚ) else 0)) := by
  simp only [score_usage_timing, if_neg h, timing_foldl_eq, zero_add]
  split_ifs <;> norm_num

/-- Witness for C5 at a concrete non-empty session list. -/
theorem claim_C5_timing_formula_witness :
    score_usage_timing [{ start_hour := 9, end_hour := 12, minutes := some 180 }] = 100 := by
  rw [claim_C5_timing_formula _ (by decide)]
  decide

lemma round1_score_screen_time (m : ℤ) :
    round1 (score_screen_time m) = score_screen_time m := by
  simp only [score_screen_time]
  split_ifs <;> decide

lemma score_screen_time_antitone {m₁ m₂ : ℤ} (h : m₁ ≤ m₂) :
    score_screen_time m₂ ≤ score_screen_time m₁ := by
  have hc : (m₁ : ℚ) ≤ (m₂ : ℚ) := by exact_mod_cast h
  have hq : (m₁ : ℚ) / 60 ≤ (m₂ : ℚ) / 60 := by linarith
  simp only [score_screen_time]
  split_ifs <;> linarith

/-- C6: the screen-time sub-score is monotonically non-increasing in
`total_screen_time_minutes` (raising the total while holding the rest of the
snapshot fixed never increases the reported screen-time entry), and it
follows the step ladder ≤4h→100, ≤6h→85, ≤8h→70, ≤10h→50, ≤12h→30,
else→10. -/
theorem claim_C6_screen_time_monotone :
    (∀ (data : Snapshot) (m : ℤ), data.total_screen_time_minutes ≤ m →
      (analyze { data with total_screen_time_minutes := m }).breakdown.screen_time ≤
        (analyze data).breakdown.screen_time) ∧
    (∀ m : ℤ, score_screen_time m = screenTimeStep ((m : ℚ) / 60)) := by
  constructor
  · intro data m h
    show round1 (score_screen_time m) ≤
      round1 (score_screen_time data.total_screen_time_minutes)
    rw [round1_score_screen_time, round1_score_screen_time]
    exact score_screen_time_antitone h
  · intro m
    rfl

/-- Witness for C6 at a concrete pair of totals (0 ≤ 600 minutes). -/
theorem claim_C6_screen_time_monotone_witness :
    (analyze { emptySnapshot with total_screen_time_minutes := 600 }).breakdown.screen_time ≤
      (analyze emptySnapshot).breakdown.screen_time :=
  claim_C6_screen_time_monotone.1 emptySnapshot 600 (by decide)


lemma countP_tierTags (overall : ℚ) : (tierTags overall).countP isTierTag = 1 := by
  unfold tierTags
  split_ifs <;> rfl

lemma countP_volumeTags (hours : ℚ) : (volumeTags hours).countP isTierTag = 0 := by
  unfold volumeTags
  split_ifs <;> rfl

lemma countP_timingTags (q : ℚ) : (timingTags q).countP isTierTag = 0 := by
  unfold timingTags
  split_ifs <;> rfl

lemma countP_earlyBirdTags (sessions : List Session) :
    (earlyBirdTags sessions).countP isTierTag = 0 := by
  unfold earlyBirdTags
  split_ifs <;> rfl

lemma countP_categoryShareTags (apps : List AppUsage) (total : ℤ) :
    (categoryShareTags apps total).countP isTierTag = 0 := by
  simp only [categoryShareTags]
  split_ifs <;> rfl

lemma countP_appCountTags (apps : List AppUsage) :
    (appCountTags apps).countP isTierTag = 0 := by
  unfold appCountTags
  split_ifs <;> rfl

lemma countP_breakTags (q : ℚ) : (breakTags q).countP isTierTag = 0 := by
  unfold breakTags
  split_ifs <;> rfl

/-- C7: every result carries exactly one of the three tier tags, chosen from
the unrounded overall score: "balanced" iff it is ≥ 80, "moderate" iff it is
in [60, 80), "needs-attention" otherwise. -/
theorem claim_C7_tier_exclusive (data : Snapshot) :
    ((analyze data).tags.countP isTierTag = 1) ∧
    (calculate_overall_score (subScores data) ≥ 80 → "balanced" ∈ (analyze data).tags) ∧
    (60 ≤ calculate_overall_score (subScores data) ∧
        calculate_overall_score (subScores data) < 80 →
      "moderate" ∈ (analyze data).tags) ∧
    (calculate_overall_score (subScores data) < 60 →
      "needs-attention" ∈ (analyze data).tags) := by
  have htags : (analyze data).tags =
      generate_tags data (calculate_overall_score (subScores data)) (subScores data) := rfl
  refine ⟨?_, ?_, ?_, ?_⟩
  · rw [htags]
    unfold generate_tags
    simp [List.countP_append, countP_tierTags, countP_volumeTags, countP_timingTags,
      countP_earlyBirdTags, countP_categoryShareTags, countP_appCountTags, countP_breakTags]
  · intro h
    rw [htags]
    unfold generate_tags tierTags
    rw [if_pos h]
    simp
  · intro h
    rw [htags]
    unfold generate_tags tierTags
    rw [if_neg (not_le.mpr h.2), if_pos h.1]
    simp
  · intro h
    rw [htags]
    unfold generate_tags tierTags
    rw [if_neg (by linarith : ¬calculate_overall_score (subScores data) ≥ 80),
      if_neg (by linarith : ¬calculate_overall_score (subScores data) ≥ 60)]
    simp

/-- Witness for C7 at the all-empty snapshot (overall score 66 ∈ [60, 80)). -/
theorem claim_C7_tier_exclusive_witness :
    (analyze emptySnapshot).tags.countP isTierTag = 1 ∧
      "moderate" ∈ (analyze emptySnapshot).tags :=
  ⟨(claim_C7_tier_exclusive emptySnapshot).1,
    (claim_C7_tier_exclusive emptySnapshot).2.2.1 (by constructor <;> decide)⟩


lemma div?_eq_some {a b : ℚ} (h : b ≠ 0) : div? a b = some (a / b) := by
  simp [div?, h]

lemma length_cast_ne_zero {α : Type} {l : List α} (h : l ≠ []) :
    ((l.length : ℕ) : ℚ) ≠ 0 := by
  have hlen : l.length ≠ 0 := fun hz => h (List.length_eq_zero.mp hz)
  exact_mod_cast hlen

lemma mapM_eq_some {α β : Type} (f : α → Option β) (g : α → β)
    (h : ∀ x, f x = some (g x)) (l : List α) : l.mapM f = some (l.map g) := by
  induction l with
  | nil => rfl
  | cons x t ih => rw [List.mapM_cons, h, ih]; rfl

lemma score_screen_time?_eq (m : ℤ) :
    score_screen_time? m = some (score_screen_time m) := by
  rw [score_screen_time?, div?_eq_some (by norm_num : (60 : ℚ) ≠ 0)]
  rfl

lemma score_category_balance?_eq (apps : List AppUsage) :
    score_category_balance? apps = some (score_category_balance apps) := by
  by_cases h1 : apps = []
  · simp [score_category_balance?, score_category_balance, h1]
  · by_cases h2 : totalAppMinutes apps = 0
    · simp [score_category_balance?, score_category_balance, h1, h2]
    · have htot : ((totalAppMinutes apps : ℤ) : ℚ) ≠ 0 := by exact_mod_cast h2
      have hmap := mapM_eq_some
        (fun c : String => do
          let p ← div? ((categoryTotal apps c : ℤ) : ℚ) ((totalAppMinutes apps : ℤ) : ℚ)
          pure (p * 100))
        (fun c => ((categoryTotal apps c : ℤ) : ℚ) / ((totalAppMinutes apps : ℤ) : ℚ) * 100)
        (fun c => by simp [div?_eq_some htot]) (categoryKeys apps)
      simp only [score_category_balance?, score_category_balance, if_neg h1, if_neg h2]
      rw [hmap]
      simp [div?_eq_some htot]

lemma breaks_tail_eq (br : List ℤ) :
    (if br = [] then (pure 40 : Option ℚ)
     else do
       let avg ← div? ((br.sum : ℤ) : ℚ) ((br.length : ℕ) : ℚ)
       pure (if 1 ≤ avg ∧ avg ≤ 2 then (100 : ℚ)
         else if 1 / 2 ≤ avg ∧ avg ≤ 3 then 85
         else if avg < 1 / 2 then 50
         else 70)) =
    some (if br = [] then (40 : ℚ)
      else
        let avg : ℚ := ((br.sum : ℤ) : ℚ) / ((br.length : ℕ) : ℚ)
        if 1 ≤ avg ∧ avg ≤ 2 then 100
        else if 1 / 2 ≤ avg ∧ avg ≤ 3 then 85
        else if avg < 1 / 2 then 50
        else 70) := by
  by_cases h : br = []
  · rw [if_pos h, if_pos h]
    rfl
  · rw [if_neg h, if_neg h, div?_eq_some (length_cast_ne_zero h)]
    rfl

lemma score_breaks?_eq (sessions : List Session) :
    score_breaks? sessions = some (score_breaks sessions) := by
  by_cases h1 : sessions.length ≤ 1
  · simp [score_breaks?, score_breaks, h1]
  · rw [score_breaks?, score_breaks, if_neg h1, if_neg h1]
    exact breaks_tail_eq _

lemma generate_tags?_eq (data : Snapshot) (overall : ℚ) (scores : Scores) :
    generate_tags? data overall scores = some (generate_tags data overall scores) := by
  by_cases h : data.total_screen_time_minutes > 0
  · have htot : ((data.total_screen_time_minutes : ℤ) : ℚ) ≠ 0 := by
      have h' : (0 : ℚ) < ((data.total_screen_time_minutes : ℤ) : ℚ) := by exact_mod_cast h
      linarith
    simp [generate_tags?, generate_tags, categoryShareTags, h,
      div?_eq_some htot, div?_eq_some (show (60 : ℚ) ≠ 0 by norm_num)]
  · simp [generate_tags?, generate_tags, categoryShareTags, h,
      div?_eq_some (show (60 : ℚ) ≠ 0 by norm_num)]

lemma identify_patterns?_eq (data : Snapshot) :
    identify_patterns? data = some (identify_patterns data) := by
  by_cases h : data.total_screen_time_minutes > 0
  · have htot : ((data.total_screen_time_minutes : ℤ) : ℚ) ≠ 0 := by
      have h' : (0 : ℚ) < ((data.total_screen_time_minutes : ℤ) : ℚ) := by exact_mod_cast h
      linarith
    cases happ : data.apps with
    | nil => simp [identify_patterns?, identify_patterns, happ, h, div?_eq_some htot]
    | cons a rest => simp [identify_patterns?, identify_patterns, happ, h, div?_eq_some htot]
  · cases happ : data.apps with
    | nil => simp [identify_patterns?, identify_patterns, happ, h]
    | cons a rest => simp [identify_patterns?, identify_patterns, happ, h]

lemma analyze?_eq (data : Snapshot) : analyze? data = some (analyze data) := by
  simp [analyze?, analyze, subScores, score_screen_time?_eq, score_category_balance?_eq,
    score_breaks?_eq, generate_tags?_eq, identify_patterns?_eq,
    div?_eq_some (show (60 : ℚ) ≠ 0 by norm_num)]

/-- C8: the engine is total — the checked evaluator `analyze?`, in which every
division performed by `analyzer.py` (the screen-time and metrics hour
conversions, the category-balance shares, the break-gap average, the tag
shares, and the top-app / dominant-category percentages) returns `none` on a
zero divisor, succeeds on every snapshot and agrees with the total `analyze`;
so every division is guarded and missing fields (the structure defaults),
empty collections and zero totals are all handled without error. -/
theorem claim_C8_engine_total (data : Snapshot) :
    analyze? data = some (analyze data) :=
  analyze?_eq data

/-- C9 counterexample: a request body on which JSON parsing raises — what
Flask's `get_json` does on a malformed or empty body with its default
`silent=False` — is answered with status 500, not a client-error 4xx status:
the blanket `except` of the route converts the parse exception into a server
error. -/
theorem claim_C9_counterexample :
    ¬(400 ≤ (analyzeRoute (.raised "Failed to decode JSON object")).status ∧
      (analyzeRoute (.raised "Failed to decode JSON object")).status < 500) := by
  decide

/-- C9 amended: a request body that parses to a falsy value (JSON null, empty
object, ...) is rejected with 400 before the engine is invoked; a body whose
parsing raises — the malformed/empty-body case — is answered with 500
carrying the exception message rather than a 4xx; any internal exception is
likewise reported as a 500 with its message rather than a crash, and every
successfully parsed snapshot is answered 200 with the engine's result, the
engine itself being total. -/
theorem claim_C9_amended :
    (analyzeRoute (.value none)).status = 400 ∧
    (∀ msg : String, analyzeRoute (.raised msg) =
      { status := 500, result := none, error := some msg }) ∧
    (∀ data : Snapshot, analyzeRoute (.value (some data)) =
      { status := 200, result := some (analyze data), error := none }) := by
  refine ⟨rfl, fun msg => rfl, fun data => ?_⟩
  simp [analyzeRoute, analyze?_eq]

/-- C10 counterexample: the all-empty snapshot's full tag list is not
["moderate", "light-user", "single-minded"] — the neutral timing sub-score 50
is below 60 and also fires the "night-owl" rule. -/
theorem claim_C10_counterexample :
    (analyze emptySnapshot).tags ≠ ["moderate", "light-user", "single-minded"] := by
  decide

/-- C10 amended: for every snapshot whose apps list is empty the tags contain
"single-minded" (the app-count rule fires for every count ≤ 2, including 0),
and the all-empty snapshot's full tag list is
["moderate", "light-user", "night-owl", "single-minded"]. -/
theorem claim_C10_amended :
    (∀ data : Snapshot, data.apps = [] → "single-minded" ∈ (analyze data).tags) ∧
    (analyze emptySnapshot).tags =
      ["moderate", "light-user", "night-owl", "single-minded"] := by
  constructor
  · intro data h
    have htags : (analyze data).tags =
        generate_tags data (calculate_overall_score (subScores data)) (subScores data) := rfl
    rw [htags]
    unfold generate_tags appCountTags
    rw [h]
    simp [List.mem_append]
  · decide

/-- Witness for the amended C10 at the all-empty snapshot. -/
theorem claim_C10_amended_witness :
    "single-minded" ∈ (analyze emptySnapshot).tags :=
  claim_C10_amended.1 emptySnapshot rfl

end ConcreteEvaluation
